import Mathlib

/-!
Verification of the artist-brand matching scorer and related classification
functions of the sales-email-generator repository.

The Python code is shallowly embedded: dictionaries become association
lists (`List (String × ℚ)`), Python floats become rationals (all constants
in the scored paths are decimal literals, so ℚ is exact), Python's
substring test `needle in hay` becomes `strIn`, and `str.lower()` becomes
`toLowerStr` (the inputs are ASCII). Missing values (None/NaN) become
`Option` or empty strings/lists, matching the falsiness tests in the code.
-/

/-! ## String helpers (Python `in` and `str.lower`) -/

/-- Substring test on char lists: true iff `needle` occurs contiguously in the list. -/
def containsSub (needle : List Char) : List Char → Bool
  | [] => needle.isEmpty
  | c :: t => needle.isPrefixOf (c :: t) || containsSub needle t

/-- Python's `needle in hay` on strings. -/
def strIn (needle hay : String) : Bool := containsSub needle.data hay.data

/-- ASCII lower-casing of one character, as Python `str.lower` does on ASCII input. -/
def lowerChar (c : Char) : Char :=
  if 65 ≤ c.toNat ∧ c.toNat ≤ 90 then Char.ofNat (c.toNat + 32) else c

/-- Python `s.lower()` restricted to the ASCII strings this code base uses. -/
def toLowerStr (s : String) : String := String.mk (s.data.map lowerChar)

/-! ## Rational max, min and abs (the Python builtins)

Defined by comparison so that concrete scores reduce in the kernel; the bridge
lemmas identify them with Mathlib's lattice operations for the symbolic proofs. -/

/-- Python `max(a, b)` on rationals. -/
def rmax (a b : ℚ) : ℚ := if a ≤ b then b else a

/-- Python `min(a, b)` on rationals. -/
def rmin (a b : ℚ) : ℚ := if a ≤ b then a else b

/-- Python `abs(a)` on rationals. -/
def rabs (a : ℚ) : ℚ := rmax a (-a)

/-! ## Age similarity (`ArtistBrandMatcher.calculate_age_similarity`) -/

/-- The `age_map` local of `calculate_age_similarity`, in source order. -/
def age_map : List (String × ℕ × ℕ) :=
  [("16-20", 16, 20), ("21-29", 21, 29), ("28-43", 28, 43), ("30-39", 30, 39),
   ("40-49", 40, 49), ("44-59", 44, 59), ("50-59", 50, 59), ("60+", 60, 75)]

/-- The brand-range lookup: first `age_map` key that is a substring of the brand
age string (the loop with `break` over `age_map.items()`). -/
def brandRange (brand_age : String) : Option (ℕ × ℕ) :=
  (age_map.find? (fun e => strIn e.1 brand_age)).map (fun e => e.2)

/-- Python `range(lo, hi + 1)` as a list. -/
def bucketYears (lo hi : ℕ) : List ℕ := (List.range (hi + 1 - lo)).map (fun k => lo + k)

/-- The artist-bucket lookup: first `age_map` entry one of whose years (as a decimal
string) occurs in the artist age-group label (the `any(str(x) in artist_age_group ...)`
test with `break`). -/
def artistBucket (g : String) : Option (ℕ × ℕ) :=
  (age_map.find? (fun e => (bucketYears e.2.1 e.2.2).any (fun x => strIn (toString x) g))).map
    (fun e => e.2)

/-- One iteration of the artist-age loop: accumulates (total_score, total_weight). -/
def ageStep (b0 b1 : ℕ) (acc : ℚ × ℚ) (p : String × ℚ) : ℚ × ℚ :=
  if strIn "Years Old" p.1 then
    match artistBucket p.1 with
    | some (a0, a1) =>
      if 0 < rmin ((a1 : ℚ) - (a0 : ℚ)) ((b1 : ℚ) - (b0 : ℚ)) then
        (acc.1 + (rmax 0 (((min a1 b1 : ℕ) : ℚ) - ((max a0 b0 : ℕ) : ℚ)) /
            rmin ((a1 : ℚ) - (a0 : ℚ)) ((b1 : ℚ) - (b0 : ℚ))) * (1 + rmax 0 p.2),
          acc.2 + (1 + rmax 0 p.2))
      else acc
    | none => acc
  else acc

/-- `calculate_age_similarity(artist_age, brand_age)`: weighted age-range overlap,
0.5 when the brand age is unrecognized or no artist bucket contributes. -/
def calculate_age_similarity (artist_age : List (String × ℚ)) (brand_age : String) : ℚ :=
  match brandRange brand_age with
  | none => 0.5
  | some (b0, b1) =>
    let r := artist_age.foldl (ageStep b0 b1) (0, 0)
    if 0 < r.2 then r.1 / r.2 else 0.5

/-! ## Bounds for the age component -/

/-! ## Gender similarity (`calculate_gender_similarity`) -/

/-- `calculate_gender_similarity(artist_gender, brand_gender)`: 0.75 for
"All Genders"/empty artist data, 0.9 for a matching skew, 0.8 for a balanced
audience, else 0.6. -/
def calculate_gender_similarity (artist_gender : List (String × ℚ)) (brand_gender : String) : ℚ :=
  if brand_gender = "All Genders" ∨ artist_gender.isEmpty then 0.75
  else if 0.6 < (List.lookup "Female" artist_gender).getD 0 ∧ strIn "Female" brand_gender then 0.9
  else if 0.6 < (List.lookup "Male" artist_gender).getD 0 ∧ strIn "Male" brand_gender then 0.9
  else if rabs ((List.lookup "Female" artist_gender).getD 0 - 0.5) < 0.1 then 0.8
  else 0.6

/-! ## Income similarity (`calculate_income_similarity`) -/

/-- The `income_brackets` dict of `calculate_income_similarity`, in source order. -/
def income_brackets : List (String × ℚ) :=
  [("Less than $30K", 1), ("$25,000 - $50,000", 2), ("$30K-$49K", 2), ("$50K-$74K", 3),
   ("$50,000 - $100,000", 3.5), ("$75K-$125k", 4), ("$100,000 - $150,000", 5),
   ("$125K or More", 6), ("$150,000+", 6)]

/-- The brand income level: the first bracket key occurring in the brand income
string (the loop with `break`), defaulting to the middle level 3.5. -/
def brandIncomeLevel (brand_income : String) : ℚ :=
  match income_brackets.find? (fun e => strIn e.1 brand_income) with
  | some e => e.2
  | none => 3.5

/-- One iteration of the artist-income loop: accumulates (artist_level, total_weight)
for the brackets present verbatim in the dict. -/
def incomeStep (acc : ℚ × ℚ) (p : String × ℚ) : ℚ × ℚ :=
  match List.lookup p.1 income_brackets with
  | some level => (acc.1 + level * (1 + rmax 0 p.2), acc.2 + (1 + rmax 0 p.2))
  | none => acc

/-- The weighted-average artist income level, defaulting to 3.5 when no bracket
matches. -/
def artistIncomeLevel (artist_income : List (String × ℚ)) : ℚ :=
  match artist_income.foldl incomeStep (0, 0) with
  | (lvl, w) => if 0 < w then lvl / w else 3.5

/-- `calculate_income_similarity(artist_income, brand_income)`: inverse bracket
distance, clamped to [0, 1]. -/
def calculate_income_similarity (artist_income : List (String × ℚ)) (brand_income : String) : ℚ :=
  rmax 0 (rmin 1 (1 - rabs (artistIncomeLevel artist_income - brandIncomeLevel brand_income) / 5))

/-! ## Ethnicity similarity (`calculate_ethnicity_similarity`) -/

/-- `calculate_ethnicity_similarity(artist_ethnicity, brand_ethnicity)`: 0.7 when
either side is missing, else a base 0.5 plus a bonus for the first matching
primary ethnicity, capped at 1. -/
def calculate_ethnicity_similarity (artist_ethnicity : List (String × ℚ))
    (brand_ethnicity : String) : ℚ :=
  if artist_ethnicity.isEmpty ∨ brand_ethnicity.isEmpty then 0.7
  else
    rmin 1
      (if strIn "White" brand_ethnicity ∧ 0 < (List.lookup "White" artist_ethnicity).getD 0 then
        0.5 + 0.3 * (1 + (List.lookup "White" artist_ethnicity).getD 0)
      else if strIn "Hispanic" brand_ethnicity ∧
          0 < (List.lookup "Hispanic" artist_ethnicity).getD 0 then
        0.5 + 0.3 * (1 + (List.lookup "Hispanic" artist_ethnicity).getD 0)
      else if strIn "African American" brand_ethnicity ∧
          0 < (List.lookup "African American" artist_ethnicity).getD 0 then
        0.5 + 0.3 * (1 + (List.lookup "African American" artist_ethnicity).getD 0)
      else if strIn "Asian" brand_ethnicity ∧
          0 < (List.lookup "Asian" artist_ethnicity).getD 0 then
        0.5 + 0.3 * (1 + (List.lookup "Asian" artist_ethnicity).getD 0)
      else 0.5)

/-! ## Attribute affinity (`create_industry_attribute_map`, `calculate_attribute_affinity`) -/

/-- `create_industry_attribute_map()`: the static consumer-attribute to
brand-industry-keyword dictionary, in source order. -/
def create_industry_attribute_map : List (String × List String) :=
  [("hard seltzer", ["beer, wine, liquor", "alcoholic beverages", "beverage"]),
   ("coffee houses", ["restaurants", "coffee", "qsr", "starbucks", "dunkin"]),
   ("dog owners", ["pet supplies", "pet food", "pet care"]),
   ("movie goers", ["entertainment", "streaming", "media", "theaters"]),
   ("travelers", ["airlines", "hotels", "travel", "hospitality"]),
   ("vapers", ["tobacco", "vaping", "nicotine"]),
   ("tea drinkers", ["beverages", "tea", "non-alcoholic"]),
   ("moms", ["packaged foods", "household", "retail", "grocery"]),
   ("dads", ["automotive", "tools", "sports", "beer"]),
   ("married", ["insurance", "financial", "home improvement"]),
   ("quality conscious", ["premium", "luxury", "high-end"]),
   ("budget conscious", ["discount", "value", "walmart", "dollar"]),
   ("horror tv viewers", ["streaming", "entertainment"]),
   ("reality tv viewers", ["entertainment", "media"]),
   ("podcast listeners", ["media", "audio", "streaming"]),
   ("streamers", ["streaming", "entertainment", "gaming"]),
   ("cosmetics", ["cosmetics", "beauty", "personal care"]),
   ("snack food", ["packaged foods", "snacks", "chips"]),
   ("fast casual", ["restaurants", "qsr", "fast food"]),
   ("hybrid drivers", ["automotive", "eco-friendly", "sustainable"]),
   ("suv drivers", ["automotive", "trucks", "vehicles"])]

/-- One iteration of the attribute loop: for one artist attribute, every map key
occurring in the lowercased attribute whose industry list hits the lowercased
brand-industries string adds a score and one match (the inner `break` only skips
duplicate industries of the same key). Accumulates (total_score, match count). -/
def attrStep (bl : String) (acc : ℚ × ℕ) (p : String × ℚ) : ℚ × ℕ :=
  create_industry_attribute_map.foldl
    (fun acc2 e =>
      if strIn e.1 (toLowerStr p.1) && e.2.any (fun ind => strIn ind bl) then
        (acc2.1 + (if 0 < p.2 then (1 + p.2) / 3 else 0.3), acc2.2 + 1)
      else acc2)
    acc

/-- `calculate_attribute_affinity(artist_attrs, brand_industries)`: returns the
capped average affinity score and the number of matched attributes; `(0, 0)` when
either input is missing. -/
def calculate_attribute_affinity (artist_attrs : List (String × ℚ))
    (brand_industries : String) : ℚ × ℕ :=
  if artist_attrs.isEmpty ∨ brand_industries.isEmpty then (0, 0)
  else
    match artist_attrs.foldl (attrStep (toLowerStr brand_industries)) (0, 0) with
    | (total, nmatch) =>
      (rmin 1 (if nmatch ≠ 0 then total / (artist_attrs.length : ℚ) else 0.2), nmatch)

/-! ## Composite match score (`calculate_match_score`) -/

/-- The artist's parsed audience (the `audience_parsed` dict built by
`parse_artist_audience`): index tables per demographic dimension plus consumer
attributes. -/
structure ArtistDemo where
  gender : List (String × ℚ)
  ethnicity : List (String × ℚ)
  income : List (String × ℚ)
  age : List (String × ℚ)
  attributes : List (String × ℚ)

/-- The brand audience dict as read by `calculate_demographic_similarity` and
`calculate_match_score`: each field is the result of the corresponding `.get`
(with its default), and `region` is the truthiness of `get('Region')`. -/
structure BrandDemo where
  age : String
  gender : String
  income : String
  ethnicity : String
  region : Bool

/-- The `scores` dict of `calculate_demographic_similarity`. -/
structure DemoScores where
  age : ℚ
  gender : ℚ
  income : ℚ
  ethnicity : ℚ

/-- `calculate_demographic_similarity(artist_demo, brand_demo)`. -/
def calculate_demographic_similarity (artist : ArtistDemo) (bd : BrandDemo) : DemoScores where
  age := calculate_age_similarity artist.age bd.age
  gender := calculate_gender_similarity artist.gender bd.gender
  income := calculate_income_similarity artist.income bd.income
  ethnicity := calculate_ethnicity_similarity artist.ethnicity bd.ethnicity

/-- The geographic bonus of `calculate_match_score`: 0.8 when the brand audience
has a truthy Region, else the 0.7 default. -/
def geo_score (bd : BrandDemo) : ℚ := if bd.region then 0.8 else 0.7

/-- The rational-valued fields of the dict returned by `calculate_match_score`
(the confidence-interval fields use a floating-point square root and are not
modelled). -/
structure MatchResult where
  composite_score : ℚ
  attribute_score : ℚ
  geographic_score : ℚ
  age_similarity : ℚ
  gender_similarity : ℚ
  income_similarity : ℚ
  ethnicity_similarity : ℚ
  attribute_matches : ℕ

/-- `calculate_match_score(artist, brand)` for a dict-valued parsed brand
audience: weighted composite of the six component scores, scaled to 0-100. -/
def calculate_match_score (artist : ArtistDemo) (bd : BrandDemo)
    (industries : String) : MatchResult :=
  match calculate_demographic_similarity artist bd,
      calculate_attribute_affinity artist.attributes industries with
  | ds, (attr_score, attr_matches) =>
    { composite_score :=
        (ds.age * 0.25 + ds.gender * 0.15 + ds.income * 0.20 + ds.ethnicity * 0.10 +
          attr_score * 0.20 + geo_score bd * 0.10) * 100
      attribute_score := attr_score * 100
      geographic_score := geo_score bd * 100
      age_similarity := ds.age
      gender_similarity := ds.gender
      income_similarity := ds.income
      ethnicity_similarity := ds.ethnicity
      attribute_matches := attr_matches }

/-! ## Tier assignment (`add_match_tiers.assign_tier`) -/

/-- `assign_tier(score)` from `add_match_tiers`, with the distribution mean and
standard deviation made explicit parameters. -/
def assign_tier (mean_score std_score score : ℚ) : String :=
  if mean_score + 2 * std_score < score then "Exceptional"
  else if mean_score + std_score < score then "Strong"
  else if mean_score < score then "Good"
  else "Fair"

/-! ## Seniority classification (`classify_seniority_level`) -/

/-- `classify_seniority_level(title)`: keyword ladder over the lowercased title;
`none` models a missing (NaN) title. -/
def classify_seniority_level (title : Option String) : String :=
  match title with
  | none => "Unknown"
  | some t =>
    if t = "" then "Unknown"
    else if ["ceo", "chief executive", "president", "cmo", "chief marketing", "cto",
        "chief technology", "cfo", "chief financial", "coo",
        "chief operating"].any (fun x => strIn x (toLowerStr t)) then "C-Level"
    else if ["senior vice president", "senior vp", "svp", "executive vice president",
        "evp"].any (fun x => strIn x (toLowerStr t)) then "Senior VP"
    else if ["vice president", "vp ", " vp"].any (fun x => strIn x (toLowerStr t)) then "VP"
    else if ["senior director", "sr director",
        "sr. director"].any (fun x => strIn x (toLowerStr t)) then "Senior Director"
    else if strIn "director" (toLowerStr t) then "Director"
    else if ["senior manager", "sr manager",
        "sr. manager"].any (fun x => strIn x (toLowerStr t)) then "Senior Manager"
    else if strIn "manager" (toLowerStr t) then "Manager"
    else "Individual Contributor"

/-! ## Brand audience parsing (`parse_brand_audience`) -/

/-- JSON values, as produced by `json.loads`. -/
inductive Json where
  | null : Json
  | bool (b : Bool) : Json
  | num (q : ℚ) : Json
  | str (s : String) : Json
  | arr (elems : List Json) : Json
  | obj (fields : List (String × Json)) : Json

/-- The placeholder blob the code special-cases, spelled character by character
(left brace, two apostrophes, colon, space, two apostrophes, right brace). -/
def emptyPlaceholder : String :=
  String.mk (([123, 39, 39, 58, 32, 39, 39, 125] : List ℕ).map Char.ofNat)

/-- The quote normalization `audience_json.replace("'", chr(34))`: every
apostrophe (39) becomes a double quote (34). -/
def normalize_quotes (s : String) : String :=
  String.mk (s.data.map (fun c => if c = Char.ofNat 39 then Char.ofNat 34 else c))

/-- `parse_brand_audience(audience_json)`. `loads` abstracts the library call
`json.loads`, returning `none` where the library would raise; the surrounding
bare `except` turns every failure into the empty dict. `none` input models a
missing (NaN) value. -/
def parse_brand_audience (loads : String → Option Json) : Option String → Json
  | none => Json.obj []
  | some s =>
    if s = emptyPlaceholder then Json.obj []
    else
      match loads (normalize_quotes s) with
      | some v => v
      | none => Json.obj []

/-- A model of `json.loads` on the placeholder input: after quote normalization
the placeholder is the two-character-key-free object with one empty key mapped
to the empty string, which `json.loads` parses successfully. -/
def loadsModel : String → Option Json := fun s =>
  if s = normalize_quotes emptyPlaceholder then some (Json.obj [("", Json.str "")]) else none

/-! ## Proof development: invariants of the scoring pipeline -/

lemma rmax_eq_max (a b : ℚ) : rmax a b = max a b := by rw [rmax, max_def]

lemma rmin_eq_min (a b : ℚ) : rmin a b = min a b := by rw [rmin, min_def]

lemma rabs_eq_abs (a : ℚ) : rabs a = |a| := by
  unfold rabs rmax
  split
  · rename_i h
    rw [abs_of_nonpos (by linarith)]
  · rename_i h
    rw [abs_of_pos (by linarith [lt_of_not_le h])]

lemma ageStep_bounds (b0 b1 : ℕ) (acc : ℚ × ℚ) (p : String × ℚ)
    (h1 : 0 ≤ acc.1) (h2 : acc.1 ≤ acc.2) :
    0 ≤ (ageStep b0 b1 acc p).1 ∧ (ageStep b0 b1 acc p).1 ≤ (ageStep b0 b1 acc p).2 := by
  unfold ageStep
  simp only [rmax_eq_max, rmin_eq_min]
  split
  · split
    · rename_i a0 a1 heq
      split
      · rename_i hov
        have hov' : (0 : ℚ) < min ((a1 : ℚ) - (a0 : ℚ)) ((b1 : ℚ) - (b0 : ℚ)) := hov
        have hle : max 0 (((min a1 b1 : ℕ) : ℚ) - ((max a0 b0 : ℕ) : ℚ)) ≤
            min ((a1 : ℚ) - (a0 : ℚ)) ((b1 : ℚ) - (b0 : ℚ)) := by
          apply max_le (le_of_lt hov')
          apply le_min
          · push_cast
            have h3 : ((min a1 b1 : ℕ) : ℚ) ≤ (a1 : ℚ) := by push_cast; exact min_le_left _ _
            have h4 : ((a0 : ℕ) : ℚ) ≤ ((max a0 b0 : ℕ) : ℚ) := by push_cast; exact le_max_left _ _
            push_cast at h3 h4
            linarith
          · push_cast
            have h3 : ((min a1 b1 : ℕ) : ℚ) ≤ (b1 : ℚ) := by push_cast; exact min_le_right _ _
            have h4 : ((b0 : ℕ) : ℚ) ≤ ((max a0 b0 : ℕ) : ℚ) := by push_cast; exact le_max_right _ _
            push_cast at h3 h4
            linarith
        have hq : (0 : ℚ) ≤ max 0 (((min a1 b1 : ℕ) : ℚ) - ((max a0 b0 : ℕ) : ℚ)) :=
          le_max_left _ _
        have hos0 : (0 : ℚ) ≤
            max 0 (((min a1 b1 : ℕ) : ℚ) - ((max a0 b0 : ℕ) : ℚ)) /
              min ((a1 : ℚ) - (a0 : ℚ)) ((b1 : ℚ) - (b0 : ℚ)) :=
          div_nonneg hq (le_of_lt hov')
        have hos1 : max 0 (((min a1 b1 : ℕ) : ℚ) - ((max a0 b0 : ℕ) : ℚ)) /
              min ((a1 : ℚ) - (a0 : ℚ)) ((b1 : ℚ) - (b0 : ℚ)) ≤ 1 :=
          (div_le_one hov').mpr hle
        have hw : (1 : ℚ) ≤ 1 + max 0 p.2 := by
          have := le_max_left (0 : ℚ) p.2
          linarith
        constructor
        · simp only
          nlinarith
        · simp only
          nlinarith
      · exact ⟨h1, h2⟩
    · exact ⟨h1, h2⟩
  · exact ⟨h1, h2⟩

lemma age_foldl_bounds (b0 b1 : ℕ) (l : List (String × ℚ)) :
    ∀ acc : ℚ × ℚ, 0 ≤ acc.1 → acc.1 ≤ acc.2 →
    0 ≤ (l.foldl (ageStep b0 b1) acc).1 ∧
      (l.foldl (ageStep b0 b1) acc).1 ≤ (l.foldl (ageStep b0 b1) acc).2 := by
  induction l with
  | nil => intro acc h1 h2; exact ⟨h1, h2⟩
  | cons p t ih =>
    intro acc h1 h2
    simp only [List.foldl_cons]
    obtain ⟨g1, g2⟩ := ageStep_bounds b0 b1 acc p h1 h2
    exact ih _ g1 g2

lemma age_similarity_bounds (aa : List (String × ℚ)) (ba : String) :
    0 ≤ calculate_age_similarity aa ba ∧ calculate_age_similarity aa ba ≤ 1 := by
  unfold calculate_age_similarity
  cases hb : brandRange ba with
  | none => norm_num
  | some b =>
    obtain ⟨b0, b1⟩ := b
    simp only
    obtain ⟨g1, g2⟩ := age_foldl_bounds b0 b1 aa (0, 0) (le_refl 0) (le_refl 0)
    split
    · rename_i hpos
      exact ⟨div_nonneg g1 (le_of_lt hpos), (div_le_one hpos).mpr g2⟩
    · norm_num

lemma gender_similarity_cases (ag : List (String × ℚ)) (bg : String) :
    calculate_gender_similarity ag bg = 0.6 ∨ calculate_gender_similarity ag bg = 0.75 ∨
      calculate_gender_similarity ag bg = 0.8 ∨ calculate_gender_similarity ag bg = 0.9 := by
  unfold calculate_gender_similarity
  split_ifs <;> norm_num

lemma income_similarity_bounds (ai : List (String × ℚ)) (bi : String) :
    0 ≤ calculate_income_similarity ai bi ∧ calculate_income_similarity ai bi ≤ 1 := by
  unfold calculate_income_similarity
  simp only [rmax_eq_max, rmin_eq_min, rabs_eq_abs]
  refine ⟨le_max_left _ _, max_le ?_ (min_le_left _ _)⟩
  norm_num

lemma brandIncomeLevel_bounds (bi : String) :
    1 ≤ brandIncomeLevel bi ∧ brandIncomeLevel bi ≤ 6 := by
  unfold brandIncomeLevel
  cases h : income_brackets.find? (fun e => strIn e.1 bi) with
  | none => norm_num
  | some e =>
    have hm : e ∈ income_brackets := List.mem_of_find?_eq_some h
    simp only [income_brackets, List.mem_cons, List.not_mem_nil, or_false] at hm
    rcases hm with h' | h' | h' | h' | h' | h' | h' | h' | h' <;> subst h' <;> norm_num

lemma ethnicity_similarity_bounds (ae : List (String × ℚ)) (be : String) :
    0 ≤ calculate_ethnicity_similarity ae be ∧ calculate_ethnicity_similarity ae be ≤ 1 := by
  unfold calculate_ethnicity_similarity
  simp only [rmin_eq_min]
  split_ifs with h0 h1 h2 h3 h4
  · norm_num
  · exact ⟨le_min (by norm_num) (by nlinarith [h1.2]), min_le_left _ _⟩
  · exact ⟨le_min (by norm_num) (by nlinarith [h2.2]), min_le_left _ _⟩
  · exact ⟨le_min (by norm_num) (by nlinarith [h3.2]), min_le_left _ _⟩
  · exact ⟨le_min (by norm_num) (by nlinarith [h4.2]), min_le_left _ _⟩
  · exact ⟨le_min (by norm_num) (by norm_num), min_le_left _ _⟩

lemma attrStep_nonneg (bl : String) (acc : ℚ × ℕ) (p : String × ℚ) (h : 0 ≤ acc.1) :
    0 ≤ (attrStep bl acc p).1 := by
  unfold attrStep
  generalize create_industry_attribute_map = l
  induction l generalizing acc with
  | nil => exact h
  | cons e t ih =>
    simp only [List.foldl_cons]
    apply ih
    split
    · rename_i hc
      split
      · rename_i hp
        simp only
        nlinarith
      · simp only
        linarith
    · exact h

lemma attr_foldl_nonneg (bl : String) (l : List (String × ℚ)) :
    ∀ acc : ℚ × ℕ, 0 ≤ acc.1 → 0 ≤ (l.foldl (attrStep bl) acc).1 := by
  induction l with
  | nil => intro acc h; exact h
  | cons p t ih =>
    intro acc h
    simp only [List.foldl_cons]
    exact ih _ (attrStep_nonneg bl acc p h)

lemma attribute_affinity_bounds (attrs : List (String × ℚ)) (bi : String) :
    0 ≤ (calculate_attribute_affinity attrs bi).1 ∧ (calculate_attribute_affinity attrs bi).1 ≤ 1 := by
  unfold calculate_attribute_affinity
  simp only [rmin_eq_min]
  split
  · norm_num
  · have h0 := attr_foldl_nonneg (toLowerStr bi) attrs (0, 0) (le_refl 0)
    refine ⟨le_min (by norm_num) ?_, min_le_left _ _⟩
    split
    · exact div_nonneg h0 (Nat.cast_nonneg _)
    · norm_num

lemma gender_similarity_bounds (ag : List (String × ℚ)) (bg : String) :
    0 ≤ calculate_gender_similarity ag bg ∧ calculate_gender_similarity ag bg ≤ 1 := by
  rcases gender_similarity_cases ag bg with h | h | h | h <;> rw [h] <;> norm_num

lemma geo_score_bounds (bd : BrandDemo) : 0 ≤ geo_score bd ∧ geo_score bd ≤ 1 := by
  unfold geo_score
  split <;> norm_num

lemma foldl_if_countP {β : Type} (cond : β → Bool) (v : ℚ) (l : List β) :
    ∀ acc : ℚ × ℕ,
    l.foldl (fun acc2 e => if cond e then (acc2.1 + v, acc2.2 + 1) else acc2) acc =
      (acc.1 + (l.countP cond : ℕ) * v, acc.2 + l.countP cond) := by
  induction l with
  | nil => intro acc; simp [List.countP_nil]
  | cons e t ih =>
    intro acc
    simp only [List.foldl_cons, List.countP_cons]
    cases hc : cond e with
    | false =>
      rw [if_neg (by simp [hc])]
      rw [ih acc]
      simp [hc]
    | true =>
      rw [if_pos (by simp [hc])]
      rw [ih]
      simp only [hc, if_true, Prod.mk.injEq]
      constructor
      · push_cast
        ring
      · omega

lemma attrStep_countP (bl : String) (acc : ℚ × ℕ) (p : String × ℚ) :
    attrStep bl acc p =
      (acc.1 + (create_industry_attribute_map.countP
          (fun e => strIn e.1 (toLowerStr p.1) && e.2.any (fun ind => strIn ind bl)) : ℕ) *
          (if 0 < p.2 then (1 + p.2) / 3 else 0.3),
        acc.2 + create_industry_attribute_map.countP
          (fun e => strIn e.1 (toLowerStr p.1) && e.2.any (fun ind => strIn ind bl))) := by
  unfold attrStep
  exact foldl_if_countP _ _ _ acc

/-! ## Claim theorems -/

/-- C1: for every artist record (parsed demographics and attributes) and every
brand record (audience dict and industry string), the composite match score
returned by `calculate_match_score` lies in the closed interval [0, 100]. -/
theorem composite_score_in_range (artist : ArtistDemo) (bd : BrandDemo) (industries : String) :
    0 ≤ (calculate_match_score artist bd industries).composite_score ∧
      (calculate_match_score artist bd industries).composite_score ≤ 100 := by
  obtain ⟨ha1, ha2⟩ := age_similarity_bounds artist.age bd.age
  obtain ⟨hi1, hi2⟩ := income_similarity_bounds artist.income bd.income
  obtain ⟨he1, he2⟩ := ethnicity_similarity_bounds artist.ethnicity bd.ethnicity
  obtain ⟨hg1, hg2⟩ := gender_similarity_bounds artist.gender bd.gender
  obtain ⟨ht1, ht2⟩ := attribute_affinity_bounds artist.attributes industries
  obtain ⟨hge1, hge2⟩ := geo_score_bounds bd
  cases hA : calculate_attribute_affinity artist.attributes industries with
  | mk attr_score attr_matches =>
    rw [hA] at ht1 ht2
    simp only at ht1 ht2
    unfold calculate_match_score
    rw [hA]
    simp only [calculate_demographic_similarity]
    constructor
    · nlinarith
    · nlinarith

/-- C2: the composite score equals 100 times the weighted sum of the six
component scores with the fixed weights (age 0.25, gender 0.15, income 0.20,
ethnicity 0.10, attributes 0.20, geography 0.10), and those weights sum to 1. -/
theorem composite_score_weighted_sum (artist : ArtistDemo) (bd : BrandDemo) (industries : String) :
    (calculate_match_score artist bd industries).composite_score =
      100 * (0.25 * calculate_age_similarity artist.age bd.age +
        0.15 * calculate_gender_similarity artist.gender bd.gender +
        0.20 * calculate_income_similarity artist.income bd.income +
        0.10 * calculate_ethnicity_similarity artist.ethnicity bd.ethnicity +
        0.20 * (calculate_attribute_affinity artist.attributes industries).1 +
        0.10 * geo_score bd) ∧
      (0.25 + 0.15 + 0.20 + 0.10 + 0.20 + 0.10 : ℚ) = 1 := by
  constructor
  · cases hA : calculate_attribute_affinity artist.attributes industries with
    | mk attr_score attr_matches =>
      unfold calculate_match_score
      rw [hA]
      simp only [calculate_demographic_similarity]
      ring
  · norm_num

/-- C3: in tier assignment with distribution mean `m` and standard deviation
`s ≥ 0`, a score strictly above `m + 2s` is labeled Exceptional, and a score
exactly equal to `m` is labeled Fair. -/
theorem tier_exceptional_and_fair (m s x : ℚ) (hs : 0 ≤ s) :
    (m + 2 * s < x → assign_tier m s x = "Exceptional") ∧
      (x = m → assign_tier m s x = "Fair") := by
  constructor
  · intro h
    unfold assign_tier
    rw [if_pos h]
  · intro h
    subst h
    unfold assign_tier
    rw [if_neg (by linarith), if_neg (by linarith), if_neg (lt_irrefl _)]

/-- Witness for C3 at mean 50, standard deviation 10: score 80 is Exceptional
and score 50 (the mean) is Fair. -/
theorem tier_exceptional_and_fair_witness :
    assign_tier 50 10 80 = "Exceptional" ∧ assign_tier 50 10 50 = "Fair" :=
  ⟨(tier_exceptional_and_fair 50 10 80 (by norm_num)).1 (by norm_num),
    (tier_exceptional_and_fair 50 10 50 (by norm_num)).2 rfl⟩

/-- C7: `classify_seniority_level` sends "Chief Marketing Officer" to C-Level,
"Regional Sales Manager" to Manager, and a missing title to Unknown. -/
theorem seniority_level_examples :
    classify_seniority_level (some "Chief Marketing Officer") = "C-Level" ∧
      classify_seniority_level (some "Regional Sales Manager") = "Manager" ∧
      classify_seniority_level none = "Unknown" := by
  refine ⟨by decide, by decide, rfl⟩

/-- C10: the gender similarity always lands in the finite set
{0.6, 0.75, 0.8, 0.9}; in particular it never exceeds 0.9 nor falls below 0.6. -/
theorem gender_similarity_range (ag : List (String × ℚ)) (bg : String) :
    (calculate_gender_similarity ag bg = 0.6 ∨ calculate_gender_similarity ag bg = 0.75 ∨
      calculate_gender_similarity ag bg = 0.8 ∨ calculate_gender_similarity ag bg = 0.9) ∧
      0.6 ≤ calculate_gender_similarity ag bg ∧ calculate_gender_similarity ag bg ≤ 0.9 := by
  rcases gender_similarity_cases ag bg with h | h | h | h <;>
    rw [h] <;> exact ⟨by tauto, by norm_num, by norm_num⟩

/-- C5: income similarity is 1.0 exactly when the weighted artist bracket level
equals the brand bracket level (distance 0), and for a fixed brand it is
monotonically decreasing in the absolute bracket distance. -/
theorem income_similarity_equal_and_monotone :
    (∀ ai bi, artistIncomeLevel ai = brandIncomeLevel bi →
      calculate_income_similarity ai bi = 1) ∧
    (∀ ai1 ai2 bi,
      rabs (artistIncomeLevel ai1 - brandIncomeLevel bi) ≤
        rabs (artistIncomeLevel ai2 - brandIncomeLevel bi) →
      calculate_income_similarity ai2 bi ≤ calculate_income_similarity ai1 bi) := by
  constructor
  · intro ai bi h
    unfold calculate_income_similarity
    rw [h, sub_self]
    simp only [rabs_eq_abs, rmin_eq_min, rmax_eq_max, abs_zero]
    norm_num
  · intro ai1 ai2 bi h
    unfold calculate_income_similarity
    simp only [rabs_eq_abs, rmin_eq_min, rmax_eq_max] at h ⊢
    apply max_le_max le_rfl
    apply min_le_min le_rfl
    have h5 : |artistIncomeLevel ai1 - brandIncomeLevel bi| / 5 ≤
        |artistIncomeLevel ai2 - brandIncomeLevel bi| / 5 := by linarith
    linarith

/-- Witness for C5: an artist fully in the $30K-$49K bracket matches the brand
income "$30K-$49K" with similarity exactly 1, and an artist in the lowest
bracket (distance 1) scores no higher. -/
theorem income_similarity_witness :
    calculate_income_similarity [("$30K-$49K", 0)] "$30K-$49K" = 1 ∧
      calculate_income_similarity [("Less than $30K", 0)] "$30K-$49K" ≤
        calculate_income_similarity [("$30K-$49K", 0)] "$30K-$49K" := by
  have hbrand : brandIncomeLevel "$30K-$49K" = 2 := by
    have h : income_brackets.find? (fun e => strIn e.1 "$30K-$49K") =
        some ("$30K-$49K", 2) := by decide
    simp [brandIncomeLevel, h]
  have ha1 : artistIncomeLevel [("$30K-$49K", 0)] = 2 := by
    have h : List.lookup "$30K-$49K" income_brackets = some 2 := by decide
    simp only [artistIncomeLevel, List.foldl_cons, List.foldl_nil, incomeStep, h]
    norm_num [rmax]
  have ha2 : artistIncomeLevel [("Less than $30K", 0)] = 1 := by
    have h : List.lookup "Less than $30K" income_brackets = some 1 := by decide
    simp only [artistIncomeLevel, List.foldl_cons, List.foldl_nil, incomeStep, h]
    norm_num [rmax]
  constructor
  · exact income_similarity_equal_and_monotone.1 _ _ (by rw [hbrand, ha1])
  · apply income_similarity_equal_and_monotone.2
    rw [hbrand, ha1, ha2]
    norm_num [rabs, rmax]

/-- C6: an artist whose only attribute is "hard seltzer" at index +2.0 scores
strictly above 0.3 affinity against a brand in the "Beer, Wine, Liquor"
industry, with at least one attribute match. -/
theorem hard_seltzer_affinity :
    0.3 < (calculate_attribute_affinity [("hard seltzer", 2)] "Beer, Wine, Liquor").1 ∧
      1 ≤ (calculate_attribute_affinity [("hard seltzer", 2)] "Beer, Wine, Liquor").2 := by
  have hc : create_industry_attribute_map.countP
      (fun e => strIn e.1 (toLowerStr "hard seltzer") &&
        e.2.any (fun ind => strIn ind (toLowerStr "Beer, Wine, Liquor"))) = 1 := by decide
  have hfold : [("hard seltzer", (2 : ℚ))].foldl
      (attrStep (toLowerStr "Beer, Wine, Liquor")) (0, 0) = (1, 1) := by
    simp only [List.foldl_cons, List.foldl_nil, attrStep_countP, hc]
    norm_num
  have heval : calculate_attribute_affinity [("hard seltzer", 2)] "Beer, Wine, Liquor" = (1, 1) := by
    unfold calculate_attribute_affinity
    rw [if_neg (by decide), hfold]
    norm_num [rmin]
  rw [heval]
  norm_num

lemma artistBucket_lt (g : String) (a0 a1 : ℕ) (h : artistBucket g = some (a0, a1)) :
    a0 < a1 := by
  unfold artistBucket at h
  rw [Option.map_eq_some'] at h
  obtain ⟨e, hf, he⟩ := h
  have hm : e ∈ age_map := List.mem_of_find?_eq_some hf
  have hlt : ∀ x ∈ age_map, x.2.1 < x.2.2 := by decide
  have h2 := hlt e hm
  rw [he] at h2
  exact h2

lemma brandRange_lt (ba : String) (b0 b1 : ℕ) (h : brandRange ba = some (b0, b1)) :
    b0 < b1 := by
  unfold brandRange at h
  rw [Option.map_eq_some'] at h
  obtain ⟨e, hf, he⟩ := h
  have hm : e ∈ age_map := List.mem_of_find?_eq_some hf
  have hlt : ∀ x ∈ age_map, x.2.1 < x.2.2 := by decide
  have h2 := hlt e hm
  rw [he] at h2
  exact h2

/-- C4: for a single dominant artist age bucket, `calculate_age_similarity`
returns 1.0 when the brand age range coincides with the artist bucket (full
containment with matching bounds), and 0.0 when the two recognized ranges do
not overlap at all. -/
theorem age_similarity_extremes (g : String) (idx : ℚ) (ba : String) (a0 a1 b0 b1 : ℕ)
    (hg : strIn "Years Old" g = true)
    (hab : artistBucket g = some (a0, a1))
    (hbb : brandRange ba = some (b0, b1)) :
    ((a0, a1) = (b0, b1) → calculate_age_similarity [(g, idx)] ba = 1) ∧
      ((a1 < b0 ∨ b1 < a0) → calculate_age_similarity [(g, idx)] ba = 0) := by
  have haa : a0 < a1 := artistBucket_lt g a0 a1 hab
  have hbb2 : b0 < b1 := brandRange_lt ba b0 b1 hbb
  have hwpos : (0 : ℚ) < 1 + max 0 idx := by
    have := le_max_left (0 : ℚ) idx
    linarith
  have hapos : (0 : ℚ) < (a1 : ℚ) - (a0 : ℚ) := by
    have := (Nat.cast_lt (α := ℚ)).mpr haa
    linarith
  have hbpos : (0 : ℚ) < (b1 : ℚ) - (b0 : ℚ) := by
    have := (Nat.cast_lt (α := ℚ)).mpr hbb2
    linarith
  constructor
  · intro h
    rw [Prod.mk.injEq] at h
    obtain ⟨h1, h2⟩ := h
    subst h1
    subst h2
    unfold calculate_age_similarity
    rw [hbb]
    simp only [List.foldl_cons, List.foldl_nil]
    unfold ageStep
    simp only [hg, if_true, hab]
    rw [rmin_eq_min, min_self, if_pos hapos]
    simp only [min_self, max_self, rmax_eq_max, rmin_eq_min, zero_add]
    rw [max_eq_right (le_of_lt hapos), div_self (ne_of_gt hapos), one_mul]
    rw [if_pos hwpos, div_self (ne_of_gt hwpos)]
  · intro h
    unfold calculate_age_similarity
    rw [hbb]
    simp only [List.foldl_cons, List.foldl_nil]
    unfold ageStep
    simp only [hg, if_true, hab]
    rw [rmin_eq_min, if_pos (lt_min hapos hbpos)]
    have hno : ((min a1 b1 : ℕ) : ℚ) - ((max a0 b0 : ℕ) : ℚ) ≤ 0 := by
      rcases h with h | h
      · have c1 : ((min a1 b1 : ℕ) : ℚ) ≤ (a1 : ℚ) := by push_cast; exact min_le_left _ _
        have c2 : ((b0 : ℕ) : ℚ) ≤ ((max a0 b0 : ℕ) : ℚ) := by push_cast; exact le_max_right _ _
        have c3 : ((a1 : ℕ) : ℚ) ≤ ((b0 : ℕ) : ℚ) := by
          exact_mod_cast Nat.cast_le.mpr (le_of_lt h)
        linarith
      · have c1 : ((min a1 b1 : ℕ) : ℚ) ≤ (b1 : ℚ) := by push_cast; exact min_le_right _ _
        have c2 : ((a0 : ℕ) : ℚ) ≤ ((max a0 b0 : ℕ) : ℚ) := by push_cast; exact le_max_left _ _
        have c3 : ((b1 : ℕ) : ℚ) ≤ ((a0 : ℕ) : ℚ) := by
          exact_mod_cast Nat.cast_le.mpr (le_of_lt h)
        linarith
    simp only [rmax_eq_max, zero_add]
    rw [max_eq_left hno, zero_div, zero_mul]
    rw [if_pos hwpos, zero_div]

/-- Witness for C4: the artist bucket "21-29 Years Old" scores 1.0 against the
identical brand range "21-29" and 0.0 against the disjoint brand range "60+". -/
theorem age_similarity_extremes_witness :
    calculate_age_similarity [("21-29 Years Old", 1)] "21-29" = 1 ∧
      calculate_age_similarity [("21-29 Years Old", 1)] "60+" = 0 := by
  constructor
  · exact (age_similarity_extremes "21-29 Years Old" 1 "21-29" 21 29 21 29
      (by decide) (by decide) (by decide)).1 rfl
  · exact (age_similarity_extremes "21-29 Years Old" 1 "60+" 21 29 60 75
      (by decide) (by decide) (by decide)).2 (Or.inl (by norm_num))

/-- Counterexample to C8: with an empty artist income table and a brand income
string matching no recognized bracket, both levels default to the middle value
3.5, the bracket distance is 0, and the income similarity is 1.0 — outside the
claimed neutral band [0.5, 0.75]. -/
theorem neutral_default_counterexample :
    calculate_income_similarity [] "" = 1 ∧ ¬(calculate_income_similarity [] "" ≤ 0.75) := by
  have hfind : income_brackets.find? (fun e => strIn e.1 "") = none := by decide
  have hb : brandIncomeLevel "" = 3.5 := by simp [brandIncomeLevel, hfind]
  have ha : artistIncomeLevel [] = 3.5 := by
    simp only [artistIncomeLevel, List.foldl_nil]
    norm_num
  have h1 : calculate_income_similarity [] "" = 1 := by
    unfold calculate_income_similarity
    rw [ha, hb, sub_self]
    simp only [rabs_eq_abs, rmin_eq_min, rmax_eq_max, abs_zero]
    norm_num
  refine ⟨h1, ?_⟩
  rw [h1]
  norm_num

/-- C8 as amended: the fixed neutral defaults hold for the age (0.5),
ethnicity (0.7) and gender (0.75) dimensions; the income dimension instead
defaults the missing side to the middle bracket level 3.5, so its similarity
on a missing artist table only lies in [0.5, 1] and can reach 1.0. -/
theorem neutral_default_amended :
    (∀ aa ba, brandRange ba = none → calculate_age_similarity aa ba = 0.5) ∧
    (∀ ba, calculate_age_similarity [] ba = 0.5) ∧
    (∀ ae be, ae = [] ∨ be = "" → calculate_ethnicity_similarity ae be = 0.7) ∧
    (∀ ag bg, bg = "All Genders" ∨ ag = [] → calculate_gender_similarity ag bg = 0.75) ∧
    (∀ bi, 0.5 ≤ calculate_income_similarity [] bi ∧ calculate_income_similarity [] bi ≤ 1) := by
  refine ⟨?_, ?_, ?_, ?_, ?_⟩
  · intro aa ba h
    unfold calculate_age_similarity
    rw [h]
  · intro ba
    unfold calculate_age_similarity
    cases hb : brandRange ba with
    | none => rfl
    | some b =>
      obtain ⟨b0, b1⟩ := b
      simp only [List.foldl_nil]
      norm_num
  · intro ae be h
    unfold calculate_ethnicity_similarity
    rcases h with h | h
    · subst h
      rw [if_pos (show ([] : List (String × ℚ)).isEmpty = true ∨ be.isEmpty = true from
        Or.inl rfl)]
    · subst h
      rw [if_pos (show ae.isEmpty = true ∨ ("" : String).isEmpty = true from Or.inr rfl)]
  · intro ag bg h
    rcases h with h | h
    · subst h
      unfold calculate_gender_similarity
      rw [if_pos (show ("All Genders" : String) = "All Genders" ∨ ag.isEmpty = true from
        Or.inl rfl)]
    · subst h
      unfold calculate_gender_similarity
      rw [if_pos (show bg = "All Genders" ∨ ([] : List (String × ℚ)).isEmpty = true from
        Or.inr rfl)]
  · intro bi
    obtain ⟨hb1, hb2⟩ := brandIncomeLevel_bounds bi
    have ha : artistIncomeLevel [] = 3.5 := by
      simp only [artistIncomeLevel, List.foldl_nil]
      norm_num
    unfold calculate_income_similarity
    rw [ha]
    simp only [rabs_eq_abs, rmin_eq_min, rmax_eq_max]
    have hd1 : |(3.5 : ℚ) - brandIncomeLevel bi| ≤ 2.5 :=
      abs_le.mpr ⟨by linarith, by linarith⟩
    have hd0 : 0 ≤ |(3.5 : ℚ) - brandIncomeLevel bi| := abs_nonneg _
    constructor
    · have h1 : (0.5 : ℚ) ≤ 1 - |(3.5 : ℚ) - brandIncomeLevel bi| / 5 := by linarith
      calc (0.5 : ℚ) ≤ min 1 (1 - |(3.5 : ℚ) - brandIncomeLevel bi| / 5) :=
            le_min (by norm_num) h1
        _ ≤ max 0 (min 1 (1 - |(3.5 : ℚ) - brandIncomeLevel bi| / 5)) := le_max_right _ _
    · exact max_le (by norm_num) (min_le_left _ _)

/-- Witness for the amended C8: an unrecognized brand age gives 0.5, an empty
artist ethnicity table gives 0.7, brand gender "All Genders" gives 0.75, and
an empty artist income table against the top bracket stays at least 0.5. -/
theorem neutral_default_witness :
    calculate_age_similarity [("x", 0)] "zzz" = 0.5 ∧
      calculate_ethnicity_similarity [] "White" = 0.7 ∧
      calculate_gender_similarity [("Female", 1)] "All Genders" = 0.75 ∧
      0.5 ≤ calculate_income_similarity [] "$150,000+" :=
  ⟨neutral_default_amended.1 [("x", 0)] "zzz" (by decide),
    neutral_default_amended.2.2.1 [] "White" (Or.inl rfl),
    neutral_default_amended.2.2.2.1 [("Female", 1)] "All Genders" (Or.inl rfl),
    (neutral_default_amended.2.2.2.2 "$150,000+").1⟩

/-- Counterexample to C9: the placeholder blob is not missing, and after quote
normalization it parses (to the object with one empty key), yet the function
returns the empty dict rather than the parsed value. -/
theorem parse_brand_audience_counterexample :
    loadsModel (normalize_quotes emptyPlaceholder) = some (Json.obj [("", Json.str "")]) ∧
      parse_brand_audience loadsModel (some emptyPlaceholder) = Json.obj [] ∧
      Json.obj [] ≠ Json.obj [("", Json.str "")] := by
  refine ⟨by simp [loadsModel], by simp [parse_brand_audience], by simp⟩

/-- C9 as amended: `parse_brand_audience` is total; a missing value yields the
empty dict, the sentinel placeholder blob is mapped to the empty dict even
though it parses, any other blob whose quote-normalized form fails to parse
yields the empty dict, and any other blob that parses yields the parsed value. -/
theorem parse_brand_audience_amended (loads : String → Option Json) (j : Option String) :
    (j = none → parse_brand_audience loads j = Json.obj []) ∧
    (∀ s, j = some s → s = emptyPlaceholder → parse_brand_audience loads j = Json.obj []) ∧
    (∀ s, j = some s → s ≠ emptyPlaceholder → loads (normalize_quotes s) = none →
      parse_brand_audience loads j = Json.obj []) ∧
    (∀ s v, j = some s → s ≠ emptyPlaceholder → loads (normalize_quotes s) = some v →
      parse_brand_audience loads j = v) := by
  refine ⟨?_, ?_, ?_, ?_⟩
  · intro h
    subst h
    rfl
  · intro s hj hs
    subst hj
    subst hs
    simp [parse_brand_audience]
  · intro s hj hs hl
    subst hj
    simp [parse_brand_audience, hs, hl]
  · intro s v hj hs hl
    subst hj
    simp [parse_brand_audience, hs, hl]

/-- Witness for the amended C9 on concrete parser models and inputs. -/
theorem parse_brand_audience_amended_witness :
    parse_brand_audience (fun _ => none) none = Json.obj [] ∧
      parse_brand_audience (fun _ => none) (some emptyPlaceholder) = Json.obj [] ∧
      parse_brand_audience (fun _ => none) (some "nonsense") = Json.obj [] ∧
      parse_brand_audience (fun _ => some Json.null) (some "nonsense") = Json.null :=
  ⟨(parse_brand_audience_amended (fun _ => none) none).1 rfl,
    (parse_brand_audience_amended (fun _ => none) (some emptyPlaceholder)).2.1
      emptyPlaceholder rfl rfl,
    (parse_brand_audience_amended (fun _ => none) (some "nonsense")).2.2.1
      "nonsense" rfl (by decide) rfl,
    (parse_brand_audience_amended (fun _ => some Json.null) (some "nonsense")).2.2.2
      "nonsense" Json.null rfl (by decide) rfl⟩
